import Mathlib

/-!
Shallow embedding of the Go attendance gateway
(`attendance-api/internal/service/attendance.go` together with the domain
models of `attendance-api/internal/domain/models.go`).

Modelling conventions:
* A Go buffered channel `chan domain.SSEMessage` of capacity 10 is a
  `Channel`: a capacity, a FIFO buffer (oldest first) and a closed flag.
* The subscriber map `map[string]*SSEClient` is an association list
  `Registry`; Go map assignment replaces the entry for the key, Go `delete`
  removes it.  Go map iteration order is irrelevant to the properties here
  because broadcast updates each entry independently.
* `uuid.New().String()[:8]` and `time.Now()` are nondeterministic inputs:
  the freshly generated ID and the current instant are passed to the
  embedded operation as explicit arguments.
* `float64` values (confidence scores) are only ever copied, never computed
  with, so they are embedded as `Rat`.
* Fallible external effects (the face-recognition HTTP call, the SQLite
  INSERT) are passed in as explicit outcomes (`Except`, `Bool`).
-/

namespace AttendanceApi

/-- `domain.AttendanceRecord`: id, name, confidence, timestamp, status. -/
structure AttendanceRecord where
  id : String
  name : String
  confidence : Rat
  timestamp : Nat
  status : String
deriving DecidableEq, Repr

/-- `domain.SSEMessage`: an event tag and an attendance record payload. -/
structure SSEMessage where
  event : String
  data : AttendanceRecord
deriving DecidableEq, Repr

/-- `domain.FaceLocation`: bounding box of a detected face. -/
structure FaceLocation where
  top : Int
  right : Int
  bottom : Int
  left : Int
deriving DecidableEq, Repr

/-- `domain.RecognizedFace`: one face reported by the recognition API. -/
structure RecognizedFace where
  name : String
  confidence : Rat
  location : FaceLocation
deriving DecidableEq, Repr

/-- `domain.RecognitionResult`: response of the face-recognition API. -/
structure RecognitionResult where
  success : Bool
  facesDetected : Int
  faces : List RecognizedFace
deriving DecidableEq, Repr

/-- `domain.AttendanceResponse`: the gateway's reply to the device. -/
structure AttendanceResponse where
  success : Bool
  authorized : Bool
  name : String
  confidence : Rat
  message : String
  action : String
deriving DecidableEq, Repr

/-- A Go buffered channel of `SSEMessage`: capacity, FIFO buffer, closed flag. -/
structure Channel where
  capacity : Nat
  buffer : List SSEMessage
  closed : Bool
deriving DecidableEq, Repr

/-- Non-blocking send (`select { case ch <- msg: default: }`) on an open
buffered channel: enqueue when the buffer has room, otherwise drop.  Returns
the updated channel and whether the send succeeded.  (Channels reachable in
the registry are never closed, so the closed-send panic does not arise.) -/
def trySend (ch : Channel) (msg : SSEMessage) : Channel × Bool :=
  if ch.buffer.length < ch.capacity then
    ({ ch with buffer := ch.buffer ++ [msg] }, true)
  else
    (ch, false)

/-- `close(ch)` on a channel. -/
def closeChan (ch : Channel) : Channel :=
  { ch with closed := true }

/-- `service.SSEClient`: id, channel, active flag. -/
structure SSEClient where
  id : String
  channel : Channel
  active : Bool
deriving DecidableEq, Repr

/-- The subscriber registry `map[string]*SSEClient`, as an association list. -/
abbrev Registry := List (String × SSEClient)

/-- Go map lookup `s.clients[id]`. -/
def lookupKey (id : String) : Registry → Option SSEClient
  | [] => none
  | (k, c) :: rest => if k = id then some c else lookupKey id rest

/-- Go `delete(s.clients, id)`: drop the entry (entries) keyed `id`. -/
def eraseKey (id : String) : Registry → Registry
  | [] => []
  | (k, c) :: rest => if k = id then eraseKey id rest else (k, c) :: eraseKey id rest

/-- Go map assignment `s.clients[id] = c` (replaces any entry for `id`). -/
def insertKey (id : String) (c : SSEClient) (r : Registry) : Registry :=
  (id, c) :: eraseKey id r

/-- The channel `make(chan domain.SSEMessage, 10)` created by `Subscribe`:
capacity 10, empty buffer, open. -/
def freshChannel : Channel :=
  { capacity := 10, buffer := [], closed := false }

/-- `AttendanceService.Subscribe`: create a buffered channel of capacity 10
(`freshChannel`), insert an active client holding it under the freshly
generated ID `newId` (passed in, standing for `uuid.New().String()[:8]`),
and return the ID and channel together with the updated registry. -/
def Subscribe (newId : String) (r : Registry) : (String × Channel) × Registry :=
  ((newId, freshChannel),
   insertKey newId { id := newId, channel := freshChannel, active := true } r)

/-- `AttendanceService.Unsubscribe`: when a client with key `id` exists, mark
it inactive, close its channel and delete its entry; otherwise only log.
The second component returns the (mutated) client object that was removed,
if any, so that the closing of its channel is observable. -/
def Unsubscribe (id : String) (r : Registry) : Registry × Option SSEClient :=
  match lookupKey id r with
  | some c =>
      (eraseKey id r, some { c with active := false, channel := closeChan c.channel })
  | none => (r, none)

/-- Loop body of `AttendanceService.broadcast` for one client: skip it when
inactive, otherwise perform one non-blocking send of `msg` on its
channel. -/
def broadcastClient (msg : SSEMessage) (c : SSEClient) : SSEClient :=
  if c.active then { c with channel := (trySend c.channel msg).1 } else c

/-- `AttendanceService.broadcast`: iterate the registry, applying the loop
body once to every client. -/
def broadcastOp (msg : SSEMessage) : Registry → Registry
  | [] => []
  | (k, c) :: rest => (k, broadcastClient msg c) :: broadcastOp msg rest

/-- One firing of the ticker body of
`AttendanceService.cleanupStaleConnections`: delete every client whose
active flag is false. -/
def sweepOp (r : Registry) : Registry :=
  r.filter (fun p => p.2.active)

/-- The persistent and in-memory state of the service touched by
`RecordAttendance`: the SQLite `attendance` table (as the list of inserted
rows, in insertion order) and the SSE subscriber registry. -/
structure ServiceState where
  db : List AttendanceRecord
  clients : Registry
deriving DecidableEq, Repr

/-- `AttendanceService.saveRecord`: issue the INSERT of `rec` into the
`attendance` table.  `insertOk` is the outcome of the SQLite `Exec`: on
success the row is appended, on failure the table is unchanged and an error
is returned. -/
def saveRecord (insertOk : Bool) (rec : AttendanceRecord)
    (db : List AttendanceRecord) : List AttendanceRecord × Bool :=
  if insertOk then (db ++ [rec], true) else (db, false)

/-- Everything `RecordAttendance` produces: the HTTP response and Go error,
the resulting service state, the record handed to `saveRecord` (if any) and
the message handed to `broadcast` (if any). -/
structure RAOutcome where
  resp : AttendanceResponse
  errOut : Option String
  state : ServiceState
  savedAttempt : Option AttendanceRecord
  broadcasted : Option SSEMessage
deriving DecidableEq, Repr

/-- The attendance record `RecordAttendance` builds from the first reported
face: a fresh ID, the face's name and confidence, the current timestamp,
and status `"authorized"` exactly when the name is not `"Unknown"`. -/
def mkRecord (newId : String) (face : RecognizedFace) (now : Nat) :
    AttendanceRecord :=
  { id := newId, name := face.name, confidence := face.confidence,
    timestamp := now,
    status := if face.name != "Unknown" then "authorized" else "unauthorized" }

/-- `AttendanceService.RecordAttendance`.  Nondeterministic inputs are
explicit: `recog` is the outcome of `faceClient.RecognizeFace`, `newId`
stands for `uuid.New().String()`, `now` for `time.Now()`, and `insertOk`
for the success of the SQLite INSERT in `saveRecord`.  The result is `none`
exactly when the Go code panics on the out-of-bounds index
`result.Faces[0]` (possible only when `FacesDetected ≠ 0` yet `Faces` is
empty). -/
def RecordAttendance (recog : Except String RecognitionResult)
    (newId : String) (now : Nat) (insertOk : Bool)
    (st : ServiceState) : Option RAOutcome :=
  match recog with
  | .error e =>
      some { resp := { success := false, authorized := false, name := "",
                       confidence := 0, message := "Failed to recognize face",
                       action := "keep_closed" },
             errOut := some e, state := st,
             savedAttempt := none, broadcasted := none }
  | .ok result =>
      if result.facesDetected = 0 then
        some { resp := { success := true, authorized := false, name := "",
                         confidence := 0, message := "No face detected",
                         action := "keep_closed" },
               errOut := none, state := st,
               savedAttempt := none, broadcasted := none }
      else
        match result.faces.head? with
        | none => none
        | some face =>
            let authorized := face.name != "Unknown"
            let action := if authorized then "open_door" else "keep_closed"
            let message :=
              if authorized then "Welcome, " ++ face.name else "Unknown person"
            let record := mkRecord newId face now
            let db2 := (saveRecord insertOk record st.db).1
            let msg : SSEMessage := { event := "attendance", data := record }
            let clients2 := broadcastOp msg st.clients
            some { resp := { success := true, authorized := authorized,
                             name := face.name, confidence := face.confidence,
                             message := message, action := action },
                   errOut := none,
                   state := { db := db2, clients := clients2 },
                   savedAttempt := some record, broadcasted := some msg }

/-- The registry operations that can fire before `Close`: a subscriber
connects, a subscriber disconnects, an attendance event is broadcast, the
periodic sweep fires. -/
inductive RegOp where
  | subscribe (newId : String)
  | unsubscribe (id : String)
  | broadcast (msg : SSEMessage)
  | sweep
deriving DecidableEq, Repr

/-- Effect of one registry operation on the registry. -/
def applyOp (r : Registry) : RegOp → Registry
  | .subscribe newId => (Subscribe newId r).2
  | .unsubscribe id => (Unsubscribe id r).1
  | .broadcast msg => broadcastOp msg r
  | .sweep => sweepOp r

/-- Run a sequence of registry operations from the empty registry
(the state `NewAttendanceService` starts from). -/
def runOps (ops : List RegOp) : Registry :=
  ops.foldl applyOp []

/-!
Lock-discipline model for the claim about `sync.RWMutex` usage.

Each method of `AttendanceService` that touches `s.clients` is abstracted to
the sequence of lock events, registry-map accesses and channel operations it
performs, in program order.  A trace is well-locked when it runs to
completion under the rule that a map read or channel send needs at least the
read lock and a map write or channel close needs the write lock, starting
and ending with the lock free.  Validity of an interleaving of two traces
additionally enforces RW-mutex semantics: the write lock excludes every
other holder, the read lock excludes a writer.
-/

/-- An atomic event of a service method: lock operations on `s.mu`,
accesses to the `s.clients` map, sends on and closes of subscriber
channels. -/
inductive Ev where
  | lockR | unlockR | lockW | unlockW
  | mapRead | mapWrite | chanSend | chanClose
deriving DecidableEq, Repr, Fintype

/-- What one goroutine holds of the RW-mutex. -/
inductive Mode where
  | free | rheld | wheld
deriving DecidableEq, Repr, Fintype

/-- One goroutine performs event `e` while it holds `own` of the mutex and
the other goroutine holds `other`.  `none` means the event cannot fire
there: lock acquisition blocks (RW-mutex exclusion), and a map or channel
access without the required lock is a discipline violation. -/
def evStep (own other : Mode) : Ev → Option Mode
  | .lockR => if own = Mode.free ∧ other ≠ Mode.wheld then some Mode.rheld else none
  | .unlockR => if own = Mode.rheld then some Mode.free else none
  | .lockW => if own = Mode.free ∧ other = Mode.free then some Mode.wheld else none
  | .unlockW => if own = Mode.wheld then some Mode.free else none
  | .mapRead => if own ≠ Mode.free then some own else none
  | .mapWrite => if own = Mode.wheld then some own else none
  | .chanSend => if own ≠ Mode.free then some own else none
  | .chanClose => if own = Mode.wheld then some own else none

/-- Run a single goroutine's trace with no other goroutine present. -/
def runTrace (own : Mode) : List Ev → Option Mode
  | [] => some own
  | e :: rest =>
      match evStep own Mode.free e with
      | some own2 => runTrace own2 rest
      | none => none

/-- A trace is well-locked when it runs from lock-free to lock-free:
every map access in it happens under at least the read lock and every
mutation or channel close under the write lock. -/
def wellLocked (t : List Ev) : Bool :=
  runTrace Mode.free t = some Mode.free

/-- Run an interleaving of two goroutines' traces (events tagged with the
goroutine, `true`/`false`) under RW-mutex semantics; `none` when some event
cannot fire at its position. -/
def runMerge (m1 m2 : Mode) : List (Bool × Ev) → Option (Mode × Mode)
  | [] => some (m1, m2)
  | (tag, e) :: rest =>
      if tag then
        match evStep m1 m2 e with
        | some m1' => runMerge m1' m2 rest
        | none => none
      else
        match evStep m2 m1 e with
        | some m2' => runMerge m1 m2' rest
        | none => none

/-- Events that access the registry map or a subscriber channel. -/
def accessEv : Ev → Bool
  | .mapRead | .mapWrite | .chanSend | .chanClose => true
  | _ => false

/-- Events that mutate the registry map or close a channel. -/
def mutEv : Ev → Bool
  | .mapWrite | .chanClose => true
  | _ => false

/-- Walk an interleaving and check conflict freedom at every step: whenever
a goroutine accesses the map or a channel, the other goroutine does not
hold the write lock, and whenever it mutates the map or closes a channel,
the other goroutine holds nothing at all.  (A step at which the
interleaving is stuck is not checked; validity is assumed separately.) -/
def noConflict (m1 m2 : Mode) : List (Bool × Ev) → Bool
  | [] => true
  | (tag, e) :: rest =>
      let other := if tag then m2 else m1
      (!(accessEv e) || decide (other ≠ Mode.wheld)) &&
      (!(mutEv e) || decide (other = Mode.free)) &&
      (if tag then
        match evStep m1 m2 e with
        | some m1' => noConflict m1' m2 rest
        | none => true
      else
        match evStep m2 m1 e with
        | some m2' => noConflict m1 m2' rest
        | none => true)

/-- Trace of `Subscribe`: take the write lock, write the new entry into the
map, read `len(s.clients)` for the log, unlock. -/
def subscribeTrace : List Ev :=
  [Ev.lockW, Ev.mapWrite, Ev.mapRead, Ev.unlockW]

/-- Trace of `Unsubscribe` when the client exists: write lock, map lookup,
close the channel, delete the entry, read `len` for the log, unlock. -/
def unsubscribeTraceHit : List Ev :=
  [Ev.lockW, Ev.mapRead, Ev.chanClose, Ev.mapWrite, Ev.mapRead, Ev.unlockW]

/-- Trace of `Unsubscribe` when the client is unknown: write lock, map
lookup, unlock. -/
def unsubscribeTraceMiss : List Ev :=
  [Ev.lockW, Ev.mapRead, Ev.unlockW]

/-- Per-client body of the `broadcast` loop: read the entry, attempt the
non-blocking send. -/
def broadcastBody : Nat → List Ev
  | 0 => []
  | n + 1 => Ev.mapRead :: Ev.chanSend :: broadcastBody n

/-- Trace of `broadcast` over a registry of `n` clients: read lock, the
loop, read `len` for the log, read unlock. -/
def broadcastTrace (n : Nat) : List Ev :=
  Ev.lockR :: broadcastBody n ++ [Ev.mapRead, Ev.unlockR]

/-- Per-client body of the cleanup loop: read the entry, delete it when
inactive. -/
def sweepBody : Nat → List Ev
  | 0 => []
  | n + 1 => Ev.mapRead :: Ev.mapWrite :: sweepBody n

/-- Trace of one firing of `cleanupStaleConnections`: write lock, read
`len`, the loop, read `len` again, unlock. -/
def sweepTrace (n : Nat) : List Ev :=
  Ev.lockW :: Ev.mapRead :: sweepBody n ++ [Ev.mapRead, Ev.unlockW]

/-- Per-client body of the `GetSSEStats` loop: read each entry. -/
def statsBody : Nat → List Ev
  | 0 => []
  | n + 1 => Ev.mapRead :: statsBody n

/-- Trace of `GetSSEStats`: read lock, the loop, two `len` reads, read
unlock. -/
def statsTrace (n : Nat) : List Ev :=
  Ev.lockR :: statsBody n ++ [Ev.mapRead, Ev.mapRead, Ev.unlockR]

/-- Per-client body of the `Close` shutdown loop: read the entry, close its
channel, delete it. -/
def closeBody : Nat → List Ev
  | 0 => []
  | n + 1 => Ev.mapRead :: Ev.chanClose :: Ev.mapWrite :: closeBody n

/-- Trace of `Close`: write lock, read `len` for the log, the loop,
unlock. -/
def closeTrace (n : Nat) : List Ev :=
  Ev.lockW :: Ev.mapRead :: closeBody n ++ [Ev.unlockW]

/-! ### Helper lemmas about the registry operations -/

/-- A client for use in concrete witnesses: an entry as `Subscribe` builds
it, with a chosen active flag. -/
def mkClient (id : String) (activeFlag : Bool) : SSEClient :=
  { id := id, channel := freshChannel, active := activeFlag }

/-- A concrete record for use in concrete witnesses. -/
def sampleRecord : AttendanceRecord :=
  { id := "r1", name := "alice", confidence := 1, timestamp := 0,
    status := "authorized" }

/-- A concrete SSE message for use in concrete witnesses. -/
def sampleMsg : SSEMessage :=
  { event := "attendance", data := sampleRecord }

/-- A concrete recognized face for use in concrete witnesses. -/
def sampleFace : RecognizedFace :=
  { name := "alice", confidence := 1,
    location := { top := 0, right := 0, bottom := 0, left := 0 } }

/-- A concrete one-face recognition result for use in concrete witnesses. -/
def sampleRes : RecognitionResult :=
  { success := true, facesDetected := 1, faces := [sampleFace] }

/-- A concrete zero-face recognition result for use in concrete
witnesses. -/
def sampleResZero : RecognitionResult :=
  { success := true, facesDetected := 0, faces := [] }

theorem lookupKey_none_keys (id : String) (r : Registry)
    (h : lookupKey id r = none) : ∀ p ∈ r, p.1 ≠ id := by
  induction r with
  | nil => intro p hp; cases hp
  | cons q rest ih =>
      intro p hp
      rw [lookupKey] at h
      by_cases hq : q.1 = id
      · rw [if_pos hq] at h; cases h
      · rw [if_neg hq] at h
        rcases List.mem_cons.mp hp with hp | hp
        · rw [hp]; exact hq
        · exact ih h p hp

theorem eraseKey_eq_self (id : String) (r : Registry)
    (h : lookupKey id r = none) : eraseKey id r = r := by
  induction r with
  | nil => rfl
  | cons q rest ih =>
      obtain ⟨k, c⟩ := q
      rw [lookupKey] at h
      by_cases hk : k = id
      · rw [if_pos hk] at h; cases h
      · rw [if_neg hk] at h
        rw [eraseKey, if_neg hk, ih h]

theorem lookupKey_eraseKey_self (id : String) (r : Registry) :
    lookupKey id (eraseKey id r) = none := by
  induction r with
  | nil => rfl
  | cons q rest ih =>
      obtain ⟨k, c⟩ := q
      rw [eraseKey]
      by_cases hk : k = id
      · rw [if_pos hk]; exact ih
      · rw [if_neg hk, lookupKey, if_neg hk]; exact ih

theorem lookupKey_eraseKey_ne (id k : String) (r : Registry) (h : k ≠ id) :
    lookupKey k (eraseKey id r) = lookupKey k r := by
  induction r with
  | nil => rfl
  | cons q rest ih =>
      obtain ⟨k1, c⟩ := q
      rw [eraseKey]
      by_cases hk1 : k1 = id
      · have hk1k : ¬ k1 = k := by rw [hk1]; exact fun hik => h hik.symm
        rw [if_pos hk1, lookupKey, if_neg hk1k]; exact ih
      · by_cases hk1k : k1 = k
        · rw [if_neg hk1, lookupKey, if_pos hk1k, lookupKey, if_pos hk1k]
        · rw [if_neg hk1, lookupKey, if_neg hk1k, lookupKey, if_neg hk1k]; exact ih

theorem lookupKey_broadcastOp (msg : SSEMessage) (id : String) (r : Registry) :
    lookupKey id (broadcastOp msg r) = (lookupKey id r).map (broadcastClient msg) := by
  induction r with
  | nil => rfl
  | cons q rest ih =>
      obtain ⟨k, c⟩ := q
      rw [broadcastOp, lookupKey, lookupKey]
      by_cases hk : k = id
      · rw [if_pos hk, if_pos hk]; rfl
      · rw [if_neg hk, if_neg hk]; exact ih

/-! ### Claims C2, C3, C6, C7 -/

/-- C2: `Subscribe` creates a fresh buffered channel (capacity 10, empty,
open), inserts an active client holding that channel under the newly
generated ID, leaves every other key untouched, and returns the ID and the
channel. -/
theorem claim_C2_subscribe_fresh_channel (newId : String) (r : Registry) :
    (Subscribe newId r).1 = (newId, freshChannel) ∧
    freshChannel.capacity = 10 ∧
    freshChannel.buffer = [] ∧
    freshChannel.closed = false ∧
    lookupKey newId (Subscribe newId r).2 =
      some { id := newId, channel := freshChannel, active := true } ∧
    (∀ k, k ≠ newId → lookupKey k (Subscribe newId r).2 = lookupKey k r) := by
  refine ⟨rfl, rfl, rfl, rfl, ?_, ?_⟩
  · rw [Subscribe]
    simp [insertKey, lookupKey]
  · intro k hk
    rw [Subscribe]
    simp only [insertKey, lookupKey]
    rw [if_neg (fun h => hk h.symm)]
    exact lookupKey_eraseKey_ne newId k r hk

/-- C2 witness at a concrete registry. -/
theorem claim_C2_subscribe_fresh_channel_witness :
    lookupKey "b" (Subscribe "a" [("b", mkClient "b" true)]).2 =
      lookupKey "b" [("b", mkClient "b" true)] :=
  (claim_C2_subscribe_fresh_channel "a" _).2.2.2.2.2 "b" (by decide)

/-- C3: when a client with the given ID is present, `Unsubscribe` closes its
channel and removes exactly its entry, leaving every other key's entry
untouched; when no such client exists the registry is returned completely
unchanged. -/
theorem claim_C3_unsubscribe_cases (id : String) (r : Registry) :
    (∀ c, lookupKey id r = some c →
      (Unsubscribe id r).1 = eraseKey id r ∧
      lookupKey id (Unsubscribe id r).1 = none ∧
      (Unsubscribe id r).2 =
        some { c with active := false, channel := closeChan c.channel } ∧
      (Unsubscribe id r).2.map (fun cl => cl.channel.closed) = some true ∧
      (∀ k, k ≠ id → lookupKey k (Unsubscribe id r).1 = lookupKey k r)) ∧
    (lookupKey id r = none → Unsubscribe id r = (r, none)) := by
  constructor
  · intro c hc
    rw [Unsubscribe, hc]
    exact ⟨rfl, lookupKey_eraseKey_self id r, rfl, rfl,
      fun k hk => lookupKey_eraseKey_ne id k r hk⟩
  · intro h
    rw [Unsubscribe, h]

/-- C3 witness: a hit on a singleton registry and a miss on it. -/
theorem claim_C3_unsubscribe_cases_witness :
    (Unsubscribe "a" [("a", mkClient "a" true)]).2.map
        (fun cl => cl.channel.closed) = some true ∧
    Unsubscribe "z" [("a", mkClient "a" true)] =
      ([("a", mkClient "a" true)], none) :=
  ⟨((claim_C3_unsubscribe_cases "a" _).1 (mkClient "a" true) (by decide)).2.2.2.1,
   (claim_C3_unsubscribe_cases "z" _).2 (by decide)⟩

/-- C6: subscribing and then immediately unsubscribing the returned ID is
the identity on the registry, given that the generated ID is fresh (as
`uuid.New()` IDs are). -/
theorem claim_C6_subscribe_unsubscribe_roundtrip (newId : String) (r : Registry)
    (h : lookupKey newId r = none) :
    (Unsubscribe newId (Subscribe newId r).2).1 = r := by
  rw [Subscribe]
  simp only [insertKey, eraseKey_eq_self newId r h]
  rw [Unsubscribe, lookupKey, if_pos rfl]
  show eraseKey newId
    ((newId, { id := newId, channel := freshChannel, active := true }) :: r) = r
  rw [eraseKey, if_pos rfl]
  exact eraseKey_eq_self newId r h

/-- C6 witness on a concrete one-client registry. -/
theorem claim_C6_subscribe_unsubscribe_roundtrip_witness :
    (Unsubscribe "a" (Subscribe "a" [("b", mkClient "b" true)]).2).1 =
      [("b", mkClient "b" true)] :=
  claim_C6_subscribe_unsubscribe_roundtrip "a" _ (by decide)

/-- C7: one firing of the sweep keeps exactly the entries whose active flag
is true, each kept entry (client and channel) unchanged, in their original
order; inactive entries are the only ones removed and no channel is
modified (the output is a sublist of the input). -/
theorem claim_C7_sweep_exact (r : Registry) :
    (∀ p, p ∈ sweepOp r ↔ p ∈ r ∧ p.2.active = true) ∧
    (sweepOp r).Sublist r := by
  constructor
  · intro p
    rw [sweepOp, List.mem_filter]
  · exact List.filter_sublist r

/-- C1: broadcast offers the event to every registered active client by
exactly one non-blocking send: the client's channel gets the event appended
when its buffer has room and is left unchanged when full, the capacity and
closed flag are untouched, the event lands in the buffer at most once per
call, and inactive clients are completely untouched. -/
theorem claim_C1_broadcast_at_most_once (msg : SSEMessage) (r : Registry)
    (id : String) (c : SSEClient) (h : lookupKey id r = some c) :
    ∃ c', lookupKey id (broadcastOp msg r) = some c' ∧
      (c.active = true →
        c'.active = true ∧
        c'.id = c.id ∧
        c'.channel.capacity = c.channel.capacity ∧
        c'.channel.closed = c.channel.closed ∧
        c'.channel.buffer =
          (if c.channel.buffer.length < c.channel.capacity
           then c.channel.buffer ++ [msg] else c.channel.buffer) ∧
        c'.channel.buffer.count msg ≤ c.channel.buffer.count msg + 1) ∧
      (c.active = false → c' = c) := by
  refine ⟨broadcastClient msg c, ?_, ?_, ?_⟩
  · rw [lookupKey_broadcastOp, h]; rfl
  · intro ha
    rw [broadcastClient, if_pos ha, trySend]
    by_cases hlen : c.channel.buffer.length < c.channel.capacity
    · rw [if_pos hlen, if_pos hlen]
      refine ⟨ha, rfl, rfl, rfl, rfl, ?_⟩
      rw [List.count_append]
      have : List.count msg [msg] ≤ 1 := by simp
      omega
    · rw [if_neg hlen, if_neg hlen]
      exact ⟨ha, rfl, rfl, rfl, rfl, Nat.le_succ _⟩
  · intro ha
    rw [broadcastClient, ha]
    rfl

/-- C1 witness: broadcasting a concrete event to a concrete one-client
registry. -/
theorem claim_C1_broadcast_at_most_once_witness :
    ∃ c', lookupKey "a" (broadcastOp sampleMsg [("a", mkClient "a" true)]) =
        some c' ∧
      ((mkClient "a" true).active = true →
        c'.active = true ∧
        c'.id = (mkClient "a" true).id ∧
        c'.channel.capacity = (mkClient "a" true).channel.capacity ∧
        c'.channel.closed = (mkClient "a" true).channel.closed ∧
        c'.channel.buffer =
          (if (mkClient "a" true).channel.buffer.length <
              (mkClient "a" true).channel.capacity
           then (mkClient "a" true).channel.buffer ++ [sampleMsg]
           else (mkClient "a" true).channel.buffer) ∧
        c'.channel.buffer.count sampleMsg ≤
          (mkClient "a" true).channel.buffer.count sampleMsg + 1) ∧
      ((mkClient "a" true).active = false → c' = mkClient "a" true) :=
  claim_C1_broadcast_at_most_once sampleMsg _ "a" (mkClient "a" true) (by decide)

/-- `broadcastClient` never changes the active flag. -/
theorem broadcastClient_active (msg : SSEMessage) (c : SSEClient) :
    (broadcastClient msg c).active = c.active := by
  rw [broadcastClient]
  by_cases h : c.active
  · rw [if_pos h]
  · rw [if_neg h]

/-- Erasing a key only removes entries. -/
theorem mem_of_mem_eraseKey (id : String) (r : Registry) (p : String × SSEClient)
    (hp : p ∈ eraseKey id r) : p ∈ r := by
  induction r with
  | nil => cases hp
  | cons q rest ih =>
      obtain ⟨k, c⟩ := q
      rw [eraseKey] at hp
      by_cases hk : k = id
      · rw [if_pos hk] at hp
        exact List.mem_cons_of_mem _ (ih hp)
      · rw [if_neg hk] at hp
        rcases List.mem_cons.mp hp with hp | hp
        · exact hp ▸ List.mem_cons_self _ _
        · exact List.mem_cons_of_mem _ (ih hp)

/-- `Unsubscribe` only removes entries. -/
theorem mem_of_mem_Unsubscribe (id : String) (r : Registry) (p : String × SSEClient)
    (hp : p ∈ (Unsubscribe id r).1) : p ∈ r := by
  rw [Unsubscribe] at hp
  cases hl : lookupKey id r with
  | some c => rw [hl] at hp; exact mem_of_mem_eraseKey id r p hp
  | none => rw [hl] at hp; exact hp

/-- `broadcastOp` preserves the activity of every entry. -/
theorem broadcastOp_preserves_active (msg : SSEMessage) (r : Registry)
    (hr : ∀ p ∈ r, p.2.active = true) :
    ∀ p ∈ broadcastOp msg r, p.2.active = true := by
  induction r with
  | nil => intro p hp; cases hp
  | cons q rest ih =>
      obtain ⟨k, c⟩ := q
      intro p hp
      rw [broadcastOp] at hp
      rcases List.mem_cons.mp hp with hp | hp
      · rw [hp]
        show (broadcastClient msg c).active = true
        rw [broadcastClient_active]
        exact hr (k, c) (List.mem_cons_self _ _)
      · exact ih (fun q hq => hr q (List.mem_cons_of_mem _ hq)) p hp

/-- Activity is preserved by every pre-`Close` registry operation. -/
theorem applyOp_preserves_active (r : Registry)
    (hr : ∀ p ∈ r, p.2.active = true) (op : RegOp) :
    ∀ p ∈ applyOp r op, p.2.active = true := by
  cases op with
  | subscribe newId =>
      intro p hp
      rcases List.mem_cons.mp hp with hp | hp
      · rw [hp]
      · exact hr p (mem_of_mem_eraseKey newId r p hp)
  | unsubscribe id =>
      intro p hp
      exact hr p (mem_of_mem_Unsubscribe id r p hp)
  | broadcast msg =>
      exact broadcastOp_preserves_active msg r hr
  | sweep =>
      intro p hp
      exact (List.mem_filter.mp hp).2

/-- C7 witness: sweeping a registry with one active and one inactive client
keeps exactly the active one. -/
theorem claim_C7_sweep_exact_witness :
    ("a", mkClient "a" true) ∈
      sweepOp [("a", mkClient "a" true), ("b", mkClient "b" false)] ∧
    ¬ ("b", mkClient "b" false) ∈
      sweepOp [("a", mkClient "a" true), ("b", mkClient "b" false)] :=
  ⟨((claim_C7_sweep_exact _).1 _).mpr (by constructor <;> decide),
   fun hmem => by
    have h2 := (((claim_C7_sweep_exact _).1 _).mp hmem).2
    simp [mkClient] at h2⟩

/-! ### Claims C4, C5, C9, C10 -/

/-- C4: in every registry state reachable from the empty registry by
subscribes, unsubscribes, broadcasts and sweeps, every registered client is
active; hence the sweep removes nothing in any reachable state. -/
theorem claim_C4_reachable_all_active (ops : List RegOp) :
    (∀ p ∈ runOps ops, p.2.active = true) ∧
    sweepOp (runOps ops) = runOps ops := by
  have hgen : ∀ (l : List RegOp) (r : Registry), (∀ p ∈ r, p.2.active = true) →
      ∀ p ∈ l.foldl applyOp r, p.2.active = true := by
    intro l
    induction l with
    | nil => intro r hr; exact hr
    | cons op rest ih =>
        intro r hr
        exact ih _ (applyOp_preserves_active r hr op)
  have hact : ∀ p ∈ runOps ops, p.2.active = true :=
    hgen ops [] (fun p hp => absurd hp (List.not_mem_nil p))
  refine ⟨hact, ?_⟩
  rw [sweepOp, List.filter_eq_self]
  intro p hp
  exact hact p hp

/-- C4 witness: after a single subscribe, the only client is active and the
sweep is the identity. -/
theorem claim_C4_reachable_all_active_witness :
    ("a", mkClient "a" true).2.active = true ∧
    sweepOp (runOps [RegOp.subscribe "a"]) = runOps [RegOp.subscribe "a"] :=
  ⟨(claim_C4_reachable_all_active [RegOp.subscribe "a"]).1
      ("a", mkClient "a" true) (by decide),
   (claim_C4_reachable_all_active [RegOp.subscribe "a"]).2⟩

/-- C5: when recognition succeeds with `FacesDetected ≠ 0` (so a first face
is reported), exactly one record is built from that face — fresh ID, the
face's name and confidence, the current timestamp, status `"authorized"`
iff the name differs from `"Unknown"` — and that same record is handed to
`saveRecord` (landing in the table when the INSERT succeeds) and broadcast
to the SSE subscribers; with `FacesDetected = 0` nothing is persisted and
nothing is broadcast. -/
theorem claim_C5_one_record_saved_and_broadcast (res : RecognitionResult)
    (newId : String) (now : Nat) (insertOk : Bool) (st : ServiceState) :
    (∀ face, res.facesDetected ≠ 0 → res.faces.head? = some face →
      ∃ out, RecordAttendance (.ok res) newId now insertOk st = some out ∧
        out.savedAttempt = some (mkRecord newId face now) ∧
        out.broadcasted = some { event := "attendance",
                                 data := mkRecord newId face now } ∧
        out.state.clients = broadcastOp
          { event := "attendance", data := mkRecord newId face now } st.clients ∧
        (insertOk = true → out.state.db = st.db ++ [mkRecord newId face now]) ∧
        ((mkRecord newId face now).status = "authorized" ↔
          face.name ≠ "Unknown") ∧
        (mkRecord newId face now).id = newId ∧
        (mkRecord newId face now).name = face.name ∧
        (mkRecord newId face now).confidence = face.confidence ∧
        (mkRecord newId face now).timestamp = now) ∧
    (res.facesDetected = 0 →
      ∃ out, RecordAttendance (.ok res) newId now insertOk st = some out ∧
        out.savedAttempt = none ∧ out.broadcasted = none ∧ out.state = st) := by
  constructor
  · intro face hdet hface
    rw [RecordAttendance, if_neg hdet, hface]
    refine ⟨_, rfl, rfl, rfl, rfl, ?_, ?_, rfl, rfl, rfl, rfl⟩
    · intro hok
      show (saveRecord insertOk (mkRecord newId face now) st.db).1 =
        st.db ++ [mkRecord newId face now]
      rw [hok, saveRecord, if_pos rfl]
    · rw [mkRecord]
      by_cases h : face.name = "Unknown"
      · simp [h]
      · simp [h]
  · intro h0
    rw [RecordAttendance, if_pos h0]
    exact ⟨_, rfl, rfl, rfl, rfl⟩

/-- C5 witness: a concrete successful recognition with one known face and a
successful INSERT, plus a concrete zero-face result. -/
theorem claim_C5_one_record_saved_and_broadcast_witness :
    (∃ out, RecordAttendance (.ok sampleRes) "r1" 0 true
        { db := [], clients := [] } = some out ∧
      out.savedAttempt = some (mkRecord "r1" sampleFace 0)) ∧
    (∃ out, RecordAttendance (.ok sampleResZero) "r1" 0 true
        { db := [], clients := [] } = some out ∧
      out.savedAttempt = none) := by
  constructor
  · obtain ⟨out, h1, h2, -⟩ :=
      (claim_C5_one_record_saved_and_broadcast sampleRes "r1" 0 true
        { db := [], clients := [] }).1 sampleFace (by decide) rfl
    exact ⟨out, h1, h2⟩
  · obtain ⟨out, h1, h2, -⟩ :=
      (claim_C5_one_record_saved_and_broadcast sampleResZero "r1" 0 true
        { db := [], clients := [] }).2 rfl
    exact ⟨out, h1, h2⟩

/-- C9: reading `result.Faces[0]` is guarded only by `FacesDetected ≠ 0`:
under the precondition that a nonzero `FacesDetected` comes with a
non-empty `Faces` list, `RecordAttendance` never hits the out-of-bounds
branch; without it (nonzero count, empty list) the out-of-bounds branch is
reached. -/
theorem claim_C9_index_in_bounds (res : RecognitionResult) (newId : String)
    (now : Nat) (insertOk : Bool) (st : ServiceState) :
    ((res.facesDetected ≠ 0 → res.faces ≠ []) →
      (RecordAttendance (.ok res) newId now insertOk st).isSome = true) ∧
    (res.facesDetected ≠ 0 → res.faces = [] →
      RecordAttendance (.ok res) newId now insertOk st = none) := by
  constructor
  · intro hpre
    by_cases h0 : res.facesDetected = 0
    · rw [RecordAttendance, if_pos h0]; rfl
    · cases hf : res.faces with
      | nil => exact absurd hf (hpre h0)
      | cons a l => rw [RecordAttendance, if_neg h0, hf]; rfl
  · intro hdet hnil
    rw [RecordAttendance, if_neg hdet, hnil]
    rfl

/-- C9 witness: a concrete one-face result under the precondition. -/
theorem claim_C9_index_in_bounds_witness :
    (RecordAttendance (.ok sampleRes) "r1" 0 true
      { db := [], clients := [] }).isSome = true :=
  (claim_C9_index_in_bounds sampleRes "r1" 0 true { db := [], clients := [] }).1
    (fun _ => by decide)

/-- C10: when recognition succeeds with a first face, the broadcast and the
success response (with its authorization verdict and door action) happen
whether or not the INSERT succeeds; in particular with a failed INSERT the
table is unchanged while the stream still carries the record and the
response still reports success. -/
theorem claim_C10_success_despite_failed_insert (res : RecognitionResult)
    (face : RecognizedFace) (newId : String) (now : Nat) (st : ServiceState)
    (hdet : res.facesDetected ≠ 0) (hface : res.faces.head? = some face) :
    ∃ out, RecordAttendance (.ok res) newId now false st = some out ∧
      out.resp.success = true ∧
      out.errOut = none ∧
      out.broadcasted = some { event := "attendance",
                               data := mkRecord newId face now } ∧
      out.state.db = st.db ∧
      out.resp.authorized = (face.name != "Unknown") ∧
      out.resp.action =
        (if face.name != "Unknown" then "open_door" else "keep_closed") ∧
      (∀ ok : Bool, ∃ out2,
        RecordAttendance (.ok res) newId now ok st = some out2 ∧
        out2.resp = out.resp ∧
        out2.broadcasted = out.broadcasted ∧
        out2.errOut = none) := by
  rw [RecordAttendance, if_neg hdet, hface]
  refine ⟨_, rfl, rfl, rfl, rfl, rfl, rfl, rfl, ?_⟩
  intro ok
  rw [RecordAttendance, if_neg hdet, hface]
  exact ⟨_, rfl, rfl, rfl, rfl⟩

/-- C10 witness: recognition of a concrete known face with a failed
INSERT. -/
theorem claim_C10_success_despite_failed_insert_witness :
    ∃ out, RecordAttendance (.ok sampleRes) "r1" 0 false
        { db := [sampleRecord], clients := [] } = some out ∧
      out.resp.success = true ∧
      out.errOut = none ∧
      out.broadcasted = some { event := "attendance",
                               data := mkRecord "r1" sampleFace 0 } ∧
      out.state.db =
        ({ db := [sampleRecord], clients := [] } : ServiceState).db ∧
      out.resp.authorized = (sampleFace.name != "Unknown") ∧
      out.resp.action =
        (if sampleFace.name != "Unknown" then "open_door" else "keep_closed") ∧
      (∀ ok : Bool, ∃ out2, RecordAttendance (.ok sampleRes) "r1" 0 ok
          { db := [sampleRecord], clients := [] } = some out2 ∧
        out2.resp = out.resp ∧
        out2.broadcasted = out.broadcasted ∧
        out2.errOut = none) :=
  claim_C10_success_despite_failed_insert sampleRes sampleFace "r1" 0
    { db := [sampleRecord], clients := [] } (by decide) rfl

/-! ### Claim C8: lock discipline -/

theorem runTrace_broadcastBody (n : Nat) (rest : List Ev) :
    runTrace Mode.rheld (broadcastBody n ++ rest) = runTrace Mode.rheld rest := by
  induction n with
  | zero => rfl
  | succ n ih =>
      rw [broadcastBody, List.cons_append, List.cons_append, runTrace]
      show runTrace Mode.rheld (Ev.chanSend :: (broadcastBody n ++ rest)) = _
      rw [runTrace]
      exact ih

theorem runTrace_sweepBody (n : Nat) (rest : List Ev) :
    runTrace Mode.wheld (sweepBody n ++ rest) = runTrace Mode.wheld rest := by
  induction n with
  | zero => rfl
  | succ n ih =>
      rw [sweepBody, List.cons_append, List.cons_append, runTrace]
      show runTrace Mode.wheld (Ev.mapWrite :: (sweepBody n ++ rest)) = _
      rw [runTrace]
      exact ih

theorem runTrace_statsBody (n : Nat) (rest : List Ev) :
    runTrace Mode.rheld (statsBody n ++ rest) = runTrace Mode.rheld rest := by
  induction n with
  | zero => rfl
  | succ n ih =>
      rw [statsBody, List.cons_append, runTrace]
      exact ih

theorem runTrace_closeBody (n : Nat) (rest : List Ev) :
    runTrace Mode.wheld (closeBody n ++ rest) = runTrace Mode.wheld rest := by
  induction n with
  | zero => rfl
  | succ n ih =>
      rw [closeBody, List.cons_append, List.cons_append, List.cons_append, runTrace]
      show runTrace Mode.wheld
        (Ev.chanClose :: Ev.mapWrite :: (closeBody n ++ rest)) = _
      rw [runTrace]
      show runTrace Mode.wheld (Ev.mapWrite :: (closeBody n ++ rest)) = _
      rw [runTrace]
      exact ih

/-- Writer exclusion invariant: while one goroutine holds the write lock,
the other holds nothing. -/
def Excl (m1 m2 : Mode) : Prop :=
  ¬(m1 = Mode.wheld ∧ m2 ≠ Mode.free) ∧ ¬(m2 = Mode.wheld ∧ m1 ≠ Mode.free)

instance (m1 m2 : Mode) : Decidable (Excl m1 m2) :=
  show Decidable (¬(m1 = Mode.wheld ∧ m2 ≠ Mode.free) ∧
    ¬(m2 = Mode.wheld ∧ m1 ≠ Mode.free)) from inferInstance

/-- One valid step of one goroutine preserves writer exclusion. -/
theorem evStep_excl_inv : ∀ (m1 m2 m1' : Mode) (e : Ev), Excl m1 m2 →
    evStep m1 m2 e = some m1' → Excl m1' m2 := by decide

/-- At a valid access step the other goroutine holds no write lock. -/
theorem evStep_access : ∀ (m1 m2 m1' : Mode) (e : Ev), Excl m1 m2 →
    evStep m1 m2 e = some m1' → accessEv e = true → m2 ≠ Mode.wheld := by decide

/-- At a valid mutation or channel-close step the other goroutine holds no
lock at all. -/
theorem evStep_mut : ∀ (m1 m2 m1' : Mode) (e : Ev), Excl m1 m2 →
    evStep m1 m2 e = some m1' → mutEv e = true → m2 = Mode.free := by decide

/-- Writer exclusion is symmetric. -/
theorem Excl_symm : ∀ m1 m2 : Mode, Excl m1 m2 → Excl m2 m1 := by decide

/-- In any interleaving of two well-locked goroutines that is valid under
the RW-mutex semantics, every step is conflict free. -/
theorem runMerge_noConflict (l : List (Bool × Ev)) : ∀ (m1 m2 : Mode),
    Excl m1 m2 → (runMerge m1 m2 l).isSome = true →
    noConflict m1 m2 l = true := by
  induction l with
  | nil => intro m1 m2 _ _; rfl
  | cons p rest ih =>
      obtain ⟨tag, e⟩ := p
      intro m1 m2 hexcl hrun
      cases tag with
      | true =>
          rw [runMerge, if_pos rfl] at hrun
          cases hstep : evStep m1 m2 e with
          | none => rw [hstep] at hrun; cases hrun
          | some m1' =>
              rw [hstep] at hrun
              have hexcl' := evStep_excl_inv m1 m2 m1' e hexcl hstep
              have hacc := evStep_access m1 m2 m1' e hexcl hstep
              have hmut := evStep_mut m1 m2 m1' e hexcl hstep
              rw [noConflict, if_pos rfl, hstep]
              simp only [if_pos rfl, Bool.and_eq_true, Bool.or_eq_true,
                Bool.not_eq_true']
              refine ⟨⟨?_, ?_⟩, ih m1' m2 hexcl' hrun⟩
              · cases hae : accessEv e with
                | false => exact Or.inl rfl
                | true => exact Or.inr (decide_eq_true (hacc hae))
              · cases hme : mutEv e with
                | false => exact Or.inl rfl
                | true => exact Or.inr (decide_eq_true (hmut hme))
      | false =>
          rw [runMerge] at hrun
          rw [if_neg (Bool.false_ne_true)] at hrun
          cases hstep : evStep m2 m1 e with
          | none => rw [hstep] at hrun; cases hrun
          | some m2' =>
              rw [hstep] at hrun
              have hexcl' :=
                evStep_excl_inv m2 m1 m2' e (Excl_symm m1 m2 hexcl) hstep
              have hacc :=
                evStep_access m2 m1 m2' e (Excl_symm m1 m2 hexcl) hstep
              have hmut :=
                evStep_mut m2 m1 m2' e (Excl_symm m1 m2 hexcl) hstep
              rw [noConflict, if_neg (Bool.false_ne_true), hstep]
              simp only [if_neg (Bool.false_ne_true), Bool.and_eq_true,
                Bool.or_eq_true, Bool.not_eq_true']
              refine ⟨⟨?_, ?_⟩,
                ih m1 m2' (Excl_symm m2' m1 hexcl') hrun⟩
              · cases hae : accessEv e with
                | false => exact Or.inl rfl
                | true => exact Or.inr (decide_eq_true (hacc hae))
              · cases hme : mutEv e with
                | false => exact Or.inl rfl
                | true => exact Or.inr (decide_eq_true (hmut hme))

/-- C8: every trace of the service methods that touch `s.clients` is
well-locked — each map access happens under at least the read lock and
each map mutation or channel close under the write lock, for registries of
any size — and in every interleaving of two such goroutines valid under
RW-mutex semantics no step accesses the map or a channel while the other
goroutine holds the write lock, and no step mutates the map or closes a
channel while the other goroutine holds any lock: a send can never
interleave with a close. -/
theorem claim_C8_registry_lock_discipline :
    (∀ n : Nat,
      wellLocked subscribeTrace = true ∧
      wellLocked unsubscribeTraceHit = true ∧
      wellLocked unsubscribeTraceMiss = true ∧
      wellLocked (broadcastTrace n) = true ∧
      wellLocked (sweepTrace n) = true ∧
      wellLocked (statsTrace n) = true ∧
      wellLocked (closeTrace n) = true) ∧
    (∀ l : List (Bool × Ev), (runMerge Mode.free Mode.free l).isSome = true →
      noConflict Mode.free Mode.free l = true) := by
  constructor
  · intro n
    refine ⟨by decide, by decide, by decide, ?_, ?_, ?_, ?_⟩
    · show decide (runTrace Mode.rheld (broadcastBody n ++ [Ev.mapRead,
        Ev.unlockR]) = some Mode.free) = true
      rw [runTrace_broadcastBody]
      rfl
    · show decide (runTrace Mode.wheld (sweepBody n ++ [Ev.mapRead,
        Ev.unlockW]) = some Mode.free) = true
      rw [runTrace_sweepBody]
      rfl
    · show decide (runTrace Mode.rheld (statsBody n ++ [Ev.mapRead,
        Ev.mapRead, Ev.unlockR]) = some Mode.free) = true
      rw [runTrace_statsBody]
      rfl
    · show decide (runTrace Mode.wheld (closeBody n ++ [Ev.unlockW]) =
        some Mode.free) = true
      rw [runTrace_closeBody]
      rfl
  · intro l hl
    exact runMerge_noConflict l Mode.free Mode.free (by decide) hl

/-- C8 witness: the traces for a two-client registry are well-locked, and a
concrete valid interleaving of a broadcast with an unsubscribe (the whole
broadcast critical section first) is conflict free. -/
theorem claim_C8_registry_lock_discipline_witness :
    wellLocked (broadcastTrace 2) = true ∧
    noConflict Mode.free Mode.free
      ((broadcastTrace 1).map (fun e => (true, e)) ++
        unsubscribeTraceHit.map (fun e => (false, e))) = true :=
  ⟨(claim_C8_registry_lock_discipline.1 2).2.2.2.1,
   claim_C8_registry_lock_discipline.2
     ((broadcastTrace 1).map (fun e => (true, e)) ++
       unsubscribeTraceHit.map (fun e => (false, e))) (by decide)⟩

end AttendanceApi
